import Mathlib

/-!
Shallow embedding of `src/src/screencast/pipewire_screencast.c`
(xdg-desktop-portal-wlr, pipewire screencast module).

Machine integers are modelled as `Nat`/`Int`; the pipewire buffer pool is a
heap `Nat → PwBuffer` indexed by buffer identity; external results (the bus
answering a dequeue request, `xdpw_buffer_create`, `pw_context_new`,
`pw_context_connect`) are explicit parameters.  C `assert` failures and
`abort()` are modelled by `Option`/dedicated result constructors.  The model
state carries three ghost observation fields (`queued`, `written`,
`frame_started`) recording calls to `pw_stream_queue_buffer`, the sequence
numbers written into header metadata, and `xdpw_wlr_frame_start`; no control
flow depends on them.
-/

namespace PipewireScreencast

/-- `SPA_DATA_MemFd` from the spa buffer headers. -/
def SPA_DATA_MemFd : Nat := 2

/-- `SPA_DATA_DmaBuf` from the spa buffer headers. -/
def SPA_DATA_DmaBuf : Nat := 3

/-- `SPA_META_HEADER_FLAG_CORRUPTED` (1 << 1). -/
def SPA_META_HEADER_FLAG_CORRUPTED : Nat := 2

/-- `SPA_CHUNK_FLAG_NONE`. -/
def SPA_CHUNK_FLAG_NONE : Nat := 0

/-- `SPA_CHUNK_FLAG_CORRUPTED` (1 << 0). -/
def SPA_CHUNK_FLAG_CORRUPTED : Nat := 1

/-- `SPA_PARAM_Format` from the spa param headers. -/
def SPA_PARAM_Format : Nat := 4

/-- `DRM_FORMAT_MOD_INVALID` = 0x00ffffffffffffff, the "unspecified" sentinel. -/
def DRM_FORMAT_MOD_INVALID : Nat := 72057594037927935

/-- `enum buffer_type` of the repository (`WL_SHM`, `DMABUF`). -/
inductive BufferType where
  | WL_SHM
  | DMABUF
deriving DecidableEq

/-- `enum xdpw_frame_state` of the repository. -/
inductive FrameState where
  | NONE
  | STARTED
  | RENEG
  | FAILED
  | SUCCESS
deriving DecidableEq

/-- `enum pw_stream_state` (pipewire). -/
inductive PwStreamState where
  | ERROR
  | UNCONNECTED
  | CONNECTING
  | PAUSED
  | STREAMING
deriving DecidableEq

/-- The fields of `struct xdpw_buffer` used by this file: geometry of the
backing buffer created by `xdpw_buffer_create` plus its fd and type. -/
structure XdpwBuffer where
  size : Nat
  stride : Nat
  offset : Nat
  fd : Int
  buffer_type : BufferType
deriving DecidableEq

/-- `struct spa_chunk` (offset, size, stride, flags). -/
structure SpaChunk where
  offset : Nat
  size : Nat
  stride : Nat
  flags : Nat
deriving DecidableEq

/-- `struct spa_meta_header` (flags, seq, pts, dts_offset). -/
structure SpaMetaHeader where
  flags : Nat
  seq : Nat
  pts : Int
  dts_offset : Int
deriving DecidableEq

/-- `struct spa_data` `d[0]` of a pipewire buffer: before admission `type` is
the storage-type bitmask offered by the bus, afterwards the concrete type. -/
structure SpaData where
  type : Nat
  flags : Nat
  fd : Int
  mapoffset : Nat
  maxsize : Nat
  chunk : SpaChunk
deriving DecidableEq

/-- `struct pw_buffer` as this module sees it: its single data plane, the
optional `SPA_META_Header` metadata, and the `user_data` pointer binding the
created `xdpw_buffer`. -/
structure PwBuffer where
  datas : SpaData
  meta_header : Option SpaMetaHeader
  user_data : Option XdpwBuffer
deriving DecidableEq

/-- The pipewire buffer pool, indexed by buffer identity. -/
abbrev Heap := Nat → PwBuffer

/-- Pointwise heap update. -/
def updateHeap (h : Heap) (i : Nat) (b : PwBuffer) : Heap :=
  fun j => if j = i then b else h j

/-- The raw video format parsed by `spa_format_video_raw_parse`, together with
whether the chosen format pod carried a `SPA_FORMAT_VIDEO_modifier` prop
(`spa_pod_find_prop` result). -/
structure ParsedFormat where
  format : Nat
  modifier : Nat
  has_modifier_prop : Bool
  max_framerate_num : Nat
  max_framerate_den : Nat
deriving DecidableEq

/-- `struct xdpw_frame`, restricted to the fields this module reads/writes:
the current pw buffer (by heap identity), the recorded xdpw buffer, and the
`y_invert` orientation flag reported by the capture source. -/
structure XdpwFrame where
  pw_buffer : Option Nat
  xdpw_buffer : Option XdpwBuffer
  y_invert : Bool
deriving DecidableEq

/-- `struct xdpw_screencast_instance`, restricted to the fields this module
reads/writes, plus ghost observation fields `queued` (arguments of
`pw_stream_queue_buffer`), `written` (sequence numbers written into header
metadata) and `frame_started` (`xdpw_wlr_frame_start` was invoked). -/
structure Cast where
  current_frame : XdpwFrame
  need_buffer : Bool
  frame_state : FrameState
  err : Nat
  seq : Nat
  pwr_stream_state : Bool
  buffer_type : BufferType
  framerate : Nat
  pwr_format : Option ParsedFormat
  queued : List Nat
  written : List Nat
  frame_started : Bool
deriving DecidableEq

/-- `xdpw_pwr_dequeue_buffer` (lines 276-286).  `bus` is the result of
`pw_stream_dequeue_buffer`; `none` as overall result models the
`assert(!cast->current_frame.pw_buffer)` failing. -/
def xdpw_pwr_dequeue_buffer (cast : Cast) (h : Heap) (bus : Option Nat) : Option Cast :=
  match cast.current_frame.pw_buffer with
  | some _ => none
  | none =>
    match bus with
    | none => some cast
    | some i =>
      some { cast with
        current_frame := { cast.current_frame with
          pw_buffer := some i
          xdpw_buffer := (h i).user_data } }

/-- `xdpw_pwr_enqueue_buffer` (lines 288-338).  Returns the new instance
state and heap; the `done:` label clears both `current_frame` pointers on
every path. -/
def xdpw_pwr_enqueue_buffer (cast : Cast) (h : Heap) : Cast × Heap :=
  match cast.current_frame.pw_buffer with
  | none =>
    ({ cast with current_frame := { cast.current_frame with
        pw_buffer := none
        xdpw_buffer := none } }, h)
  | some i =>
    let buf := h i
    let buffer_corrupt : Bool := cast.frame_state != FrameState.SUCCESS
    let buffer_corrupt : Bool := buffer_corrupt || cast.current_frame.y_invert
    let cast1 := if cast.current_frame.y_invert then { cast with err := 1 } else cast
    let withMeta :=
      match buf.meta_header with
      | none => (cast1, buf)
      | some _ =>
        let hnew : SpaMetaHeader :=
          { flags := if buffer_corrupt then SPA_META_HEADER_FLAG_CORRUPTED else 0
            seq := cast1.seq
            pts := -1
            dts_offset := 0 }
        ({ cast1 with
            seq := cast1.seq + 1
            written := cast1.written ++ [cast1.seq] },
         { buf with meta_header := some hnew })
    let cast2 := withMeta.1
    let buf1 := withMeta.2
    let buf2 := { buf1 with datas := { buf1.datas with chunk := { buf1.datas.chunk with
        flags := if buffer_corrupt then SPA_CHUNK_FLAG_CORRUPTED else SPA_CHUNK_FLAG_NONE } } }
    let cast3 := { cast2 with queued := cast2.queued ++ [i] }
    ({ cast3 with current_frame := { cast3.current_frame with
        pw_buffer := none
        xdpw_buffer := none } },
     updateHeap h i buf2)

/-- `xdpw_pwr_swap_buffer` (lines 340-356).  `bus` is the bus's answer to the
inner dequeue; `none` as overall result models an assertion failure. -/
def xdpw_pwr_swap_buffer (cast : Cast) (h : Heap) (bus : Option Nat) : Option (Cast × Heap) :=
  let s1 :=
    match cast.current_frame.pw_buffer with
    | none => (cast, h)
    | some _ => xdpw_pwr_enqueue_buffer cast h
  match s1.1.current_frame.pw_buffer with
  | some _ => none
  | none =>
    let c2 := { s1.1 with need_buffer := false }
    match xdpw_pwr_dequeue_buffer c2 s1.2 bus with
    | none => none
    | some c3 =>
      match c3.current_frame.pw_buffer with
      | none => some ({ c3 with need_buffer := true }, s1.2)
      | some _ => some (c3, s1.2)

/-- `pwr_handle_stream_on_process` (lines 114-124). -/
def pwr_handle_stream_on_process (cast : Cast) (h : Heap) (bus : Option Nat) : Option Cast :=
  if cast.need_buffer then
    match xdpw_pwr_dequeue_buffer cast h bus with
    | none => none
    | some c1 =>
      match c1.current_frame.pw_buffer with
      | some _ => some { c1 with need_buffer := false }
      | none => some c1
  else some cast

/-- `pwr_handle_stream_state_changed` (lines 126-151). -/
def pwr_handle_stream_state_changed (cast : Cast) (h : Heap)
    (old st : PwStreamState) : Cast × Heap :=
  match st with
  | PwStreamState.STREAMING =>
    let c1 := { cast with pwr_stream_state := true }
    (if c1.frame_state = FrameState.NONE then { c1 with frame_started := true } else c1, h)
  | PwStreamState.PAUSED =>
    let s1 := if old = PwStreamState.STREAMING then xdpw_pwr_enqueue_buffer cast h else (cast, h)
    ({ s1.1 with pwr_stream_state := false }, s1.2)
  | _ => ({ cast with pwr_stream_state := false }, h)

/-- `pwr_handle_stream_remove_buffer` (lines 251-265).  The destruction of the
bound `xdpw_buffer` is an external effect; the handler's state effect is to
clear `current_frame.pw_buffer` when it matches, set the descriptor fd to -1
and clear `user_data`. -/
def pwr_handle_stream_remove_buffer (cast : Cast) (h : Heap) (i : Nat) : Cast × Heap :=
  let c1 :=
    if cast.current_frame.pw_buffer = some i then
      { cast with current_frame := { cast.current_frame with pw_buffer := none } }
    else cast
  let b := h i
  (c1, updateHeap h i { b with
    datas := { b.datas with fd := -1 }
    user_data := none })

/-- Tail of `pwr_handle_stream_add_buffer` after the storage-type selection
(lines 224-248): `dtype` is the concrete type written into `d[0].type`,
`created` the result of `xdpw_buffer_create`. -/
def pwr_add_buffer_tail (cast : Cast) (h : Heap) (i : Nat) (dtype : Nat)
    (created : Option XdpwBuffer) : Option (Cast × Heap) :=
  let b := h i
  let d1 := { b.datas with type := dtype }
  match created with
  | none => some ({ cast with err := 1 }, updateHeap h i { b with datas := d1 })
  | some xb =>
    let d2 := { d1 with
      maxsize := xb.size
      mapoffset := 0
      chunk := { d1.chunk with size := xb.size, stride := xb.stride, offset := xb.offset }
      flags := 0
      fd := xb.fd }
    let d3 :=
      if xb.buffer_type = BufferType.DMABUF ∧ d2.chunk.size = 0 then
        { d2 with chunk := { d2.chunk with size := 9 } }
      else d2
    some (cast, updateHeap h i { b with datas := d3, user_data := some xb })

/-- `pwr_handle_stream_add_buffer` (lines 203-249).  `none` as result models
one of the two `assert(cast->buffer_type == ...)` failing. -/
def pwr_handle_stream_add_buffer (cast : Cast) (h : Heap) (i : Nat)
    (created : Option XdpwBuffer) : Option (Cast × Heap) :=
  let d := (h i).datas
  if d.type &&& (1 <<< SPA_DATA_MemFd) > 0 then
    if cast.buffer_type = BufferType.WL_SHM then
      pwr_add_buffer_tail cast h i SPA_DATA_MemFd created
    else none
  else if d.type &&& (1 <<< SPA_DATA_DmaBuf) > 0 then
    if cast.buffer_type = BufferType.DMABUF then
      pwr_add_buffer_tail cast h i SPA_DATA_DmaBuf created
    else none
  else some ({ cast with err := 1 }, h)

/-- Result of `pwr_handle_stream_param_changed`: early return, `abort()`, or
the updated instance together with the `blocks` and `dataType` fields of the
buffer-parameter pod it emits via `build_buffer`. -/
inductive ParamChangedResult where
  | ignored
  | aborted
  | updated (cast : Cast) (blocks : Nat) (dataType : Nat)
deriving DecidableEq

/-- `pwr_handle_stream_param_changed` (lines 153-201).  `idp` is the param
id, `param` the pod (already parsed by `spa_format_video_raw_parse`, with
`has_modifier_prop` recording the `spa_pod_find_prop` outcome). -/
def pwr_handle_stream_param_changed (cast : Cast) (idp : Nat)
    (param : Option ParsedFormat) : ParamChangedResult :=
  match param with
  | none => ParamChangedResult.ignored
  | some p =>
    if idp ≠ SPA_PARAM_Format then ParamChangedResult.ignored
    else
      let c1 := { cast with
        pwr_format := some p
        framerate := p.max_framerate_num / p.max_framerate_den }
      if p.has_modifier_prop then
        if p.modifier ≠ DRM_FORMAT_MOD_INVALID then ParamChangedResult.aborted
        else ParamChangedResult.updated { c1 with buffer_type := BufferType.DMABUF }
          1 (1 <<< SPA_DATA_DmaBuf)
      else ParamChangedResult.updated { c1 with buffer_type := BufferType.WL_SHM }
        1 (1 <<< SPA_DATA_MemFd)

/-- Encoding of the `SPA_FORMAT_VIDEO_modifier` property emitted by
`build_format`: absent, a single mandatory scalar, or a choice enumeration
with its MANDATORY and DONT_FIXATE flags and emitted value list. -/
inductive ModifierEncoding where
  | absent
  | scalar (mandatory : Bool) (value : Nat)
  | enumeration (mandatory : Bool) (dont_fixate : Bool) (values : List Nat)
deriving DecidableEq

/-- The modifier-emission loop of `build_format` (lines 68-72): emits each
modifier, duplicating the one emitted while the counter `c` is still 0. -/
def emit_modifiers : List Nat → Nat → List Nat
  | [], _ => []
  | m :: rest, c =>
    if c = 0 then m :: m :: emit_modifiers rest (c + 1)
    else m :: emit_modifiers rest (c + 1)

/-- The modifier-property section of `build_format` (lines 58-74). -/
def build_format_modifier (modifiers : List Nat) : ModifierEncoding :=
  if modifiers.length = 1 ∧ modifiers.headD 0 = DRM_FORMAT_MOD_INVALID then
    ModifierEncoding.scalar true (modifiers.headD 0)
  else if modifiers.length > 0 then
    ModifierEncoding.enumeration true true (emit_modifiers modifiers 0)
  else ModifierEncoding.absent

/-- `ctx->pwr_context` / `ctx->core` of `struct xdpw_screencast_context`,
holding opaque handles. -/
structure CtxState where
  pwr_context : Option Nat
  core : Option Nat
deriving DecidableEq

/-- External results available to `xdpw_pwr_context_create`:
`pw_context_new` and `pw_context_connect` (`none` = failure). -/
structure CtxEnv where
  new_context : Option Nat
  new_core : Option Nat
deriving DecidableEq

/-- `xdpw_pwr_context_create` (lines 419-440); returns the new state and the
C return value (0 or -1). -/
def xdpw_pwr_context_create (s : CtxState) (e : CtxEnv) : CtxState × Int :=
  let s1 := if s.pwr_context = none then { s with pwr_context := e.new_context } else s
  if s1.pwr_context = none then (s1, -1)
  else
    let s2 := if s1.core = none then { s1 with core := e.new_core } else s1
    if s2.core = none then (s2, -1) else (s2, 0)

/-- `xdpw_pwr_context_destroy` (lines 442-455). -/
def xdpw_pwr_context_destroy (s : CtxState) : CtxState :=
  let s1 := if s.core ≠ none then { s with core := none } else s
  if s1.pwr_context ≠ none then { s1 with pwr_context := none } else s1

/-- The entry points that drive the frame-exchange state: `swap` (capture
driver), the bus `process`, `state_changed` and `remove_buffer` callbacks,
and a direct `enqueue` (teardown path).  Bus answers to dequeue requests are
carried in the operation. -/
inductive Op where
  | swapB (bus : Option Nat)
  | processB (bus : Option Nat)
  | stateChangedB (old st : PwStreamState)
  | enqueueB
  | removeB (i : Nat)

/-- One entry-point invocation; `none` models an assertion failure. -/
def step (s : Cast × Heap) (op : Op) : Option (Cast × Heap) :=
  match op with
  | Op.swapB bus => xdpw_pwr_swap_buffer s.1 s.2 bus
  | Op.processB bus => (pwr_handle_stream_on_process s.1 s.2 bus).map (fun c => (c, s.2))
  | Op.stateChangedB old st => some (pwr_handle_stream_state_changed s.1 s.2 old st)
  | Op.enqueueB => some (xdpw_pwr_enqueue_buffer s.1 s.2)
  | Op.removeB i => some (pwr_handle_stream_remove_buffer s.1 s.2 i)

/-- Run a sequence of entry-point invocations. -/
def run (s : Cast × Heap) : List Op → Option (Cast × Heap)
  | [] => some s
  | op :: ops =>
    match step s op with
    | none => none
    | some s1 => run s1 ops

/-- The backpressure invariant tying `need_buffer` to the current-frame slot:
whenever `need_buffer` is set, no slot is held. -/
def needInv (c : Cast) : Prop := c.need_buffer = true → c.current_frame.pw_buffer = none

/-- All buffers in the pool carry the negotiated `SPA_META_Header` metadata. -/
def headersPresent (h : Heap) : Prop := ∀ i, (h i).meta_header ≠ none

/-! Concrete fixtures used by witnesses and counterexamples. -/

/-- An all-zero chunk. -/
def chunk0 : SpaChunk := { offset := 0, size := 0, stride := 0, flags := 0 }

/-- A data plane with the given storage-type bitmask. -/
def data0 (t : Nat) : SpaData :=
  { type := t, flags := 0, fd := 0, mapoffset := 0, maxsize := 0, chunk := chunk0 }

/-- An all-zero header record. -/
def header0 : SpaMetaHeader := { flags := 0, seq := 0, pts := 0, dts_offset := 0 }

/-- A concrete shared-memory backing buffer. -/
def xb0 : XdpwBuffer :=
  { size := 64, stride := 16, offset := 0, fd := 5, buffer_type := BufferType.WL_SHM }

/-- A pool buffer with the given storage-type bitmask, a header record and a
bound backing buffer. -/
def buf0 (t : Nat) : PwBuffer :=
  { datas := data0 t, meta_header := some header0, user_data := some xb0 }

/-- A pool in which every slot offers the MemFd bit and has a header. -/
def heap0 : Heap := fun _ => buf0 (1 <<< SPA_DATA_MemFd)

/-- The empty current-frame slot. -/
def frame0 : XdpwFrame := { pw_buffer := none, xdpw_buffer := none, y_invert := false }

/-- A fresh instance with an Empty slot. -/
def cast0 : Cast :=
  { current_frame := frame0, need_buffer := false, frame_state := FrameState.NONE
    err := 0, seq := 0, pwr_stream_state := false, buffer_type := BufferType.WL_SHM
    framerate := 0, pwr_format := none, queued := [], written := [], frame_started := false }

/-- An instance holding slot 0, with a successful non-flipped capture. -/
def castHeld : Cast :=
  { cast0 with
    frame_state := FrameState.SUCCESS
    current_frame := { pw_buffer := some 0, xdpw_buffer := some xb0, y_invert := false } }

/-- An instance holding slot 0 whose capture reported a vertical flip. -/
def castFlip : Cast :=
  { castHeld with current_frame := { castHeld.current_frame with y_invert := true } }

/-! Claim theorems. -/

/-- Claim C2: for every `enqueue()` call with a Held slot, the corruption
flag (header flags and chunk flags) is set exactly when the capture state is
not `SUCCESS` or the frame is vertically flipped; the flipped case also sets
`err`; a present header record gets pts -1 (unknown), the incremented-once
sequence number, and dts_offset 0. -/
theorem c2_enqueue_corruption (c : Cast) (h : Heap) (i : Nat)
    (hpb : c.current_frame.pw_buffer = some i) :
    (((xdpw_pwr_enqueue_buffer c h).2 i).datas.chunk.flags =
      if (c.frame_state != FrameState.SUCCESS) || c.current_frame.y_invert
      then SPA_CHUNK_FLAG_CORRUPTED else SPA_CHUNK_FLAG_NONE) ∧
    (c.current_frame.y_invert = true → (xdpw_pwr_enqueue_buffer c h).1.err = 1) ∧
    (c.current_frame.y_invert = false → (xdpw_pwr_enqueue_buffer c h).1.err = c.err) ∧
    ((h i).meta_header ≠ none →
      ((xdpw_pwr_enqueue_buffer c h).2 i).meta_header = some
        { flags := if (c.frame_state != FrameState.SUCCESS) || c.current_frame.y_invert
                   then SPA_META_HEADER_FLAG_CORRUPTED else 0
          seq := c.seq, pts := -1, dts_offset := 0 } ∧
      (xdpw_pwr_enqueue_buffer c h).1.seq = c.seq + 1) := by
  cases hm : (h i).meta_header with
  | none =>
    cases hy : c.current_frame.y_invert <;>
      simp [xdpw_pwr_enqueue_buffer, hpb, hm, hy, updateHeap]
  | some mh =>
    cases hy : c.current_frame.y_invert <;>
      simp [xdpw_pwr_enqueue_buffer, hpb, hm, hy, updateHeap]

/-- Witness for C2 at a concrete flipped capture on slot 0. -/
theorem c2_enqueue_corruption_witness :
    castFlip.current_frame.pw_buffer = some 0 ∧
    ((xdpw_pwr_enqueue_buffer castFlip heap0).2 0).datas.chunk.flags =
      SPA_CHUNK_FLAG_CORRUPTED ∧
    (xdpw_pwr_enqueue_buffer castFlip heap0).1.err = 1 := by
  have hmain := c2_enqueue_corruption castFlip heap0 0 rfl
  refine ⟨rfl, ?_, hmain.2.1 rfl⟩
  have h1 := hmain.1
  simpa using h1

/-- Claim C3: on the parse path, a modifier property with a value other than
`DRM_FORMAT_MOD_INVALID` aborts the instance; the property with the sentinel
selects DMABUF with one block and the DmaBuf storage-type bit; its absence
selects WL_SHM with one block and the MemFd storage-type bit. -/
theorem c3_param_changed (c : Cast) (p : ParsedFormat) :
    (p.has_modifier_prop = true → p.modifier ≠ DRM_FORMAT_MOD_INVALID →
      pwr_handle_stream_param_changed c SPA_PARAM_Format (some p) =
        ParamChangedResult.aborted) ∧
    (p.has_modifier_prop = true → p.modifier = DRM_FORMAT_MOD_INVALID →
      pwr_handle_stream_param_changed c SPA_PARAM_Format (some p) =
        ParamChangedResult.updated
          { c with
            pwr_format := some p
            framerate := p.max_framerate_num / p.max_framerate_den
            buffer_type := BufferType.DMABUF }
          1 (1 <<< SPA_DATA_DmaBuf) ∧
      BufferType.DMABUF = BufferType.DMABUF) ∧
    (p.has_modifier_prop = false →
      pwr_handle_stream_param_changed c SPA_PARAM_Format (some p) =
        ParamChangedResult.updated
          { c with
            pwr_format := some p
            framerate := p.max_framerate_num / p.max_framerate_den
            buffer_type := BufferType.WL_SHM }
          1 (1 <<< SPA_DATA_MemFd)) := by
  refine ⟨fun hm hv => ?_, fun hm hv => ⟨?_, rfl⟩, fun hm => ?_⟩
  · simp [pwr_handle_stream_param_changed, hm, hv]
  · simp [pwr_handle_stream_param_changed, hm, hv]
  · simp [pwr_handle_stream_param_changed, hm]

/-- A concrete chosen format carrying the sentinel modifier. -/
def pf0 : ParsedFormat :=
  { format := 7, modifier := DRM_FORMAT_MOD_INVALID, has_modifier_prop := true
    max_framerate_num := 60, max_framerate_den := 1 }

/-- Witness for C3: the sentinel-modifier format selects DMABUF. -/
theorem c3_param_changed_witness :
    pf0.has_modifier_prop = true ∧ pf0.modifier = DRM_FORMAT_MOD_INVALID ∧
    pwr_handle_stream_param_changed cast0 SPA_PARAM_Format (some pf0) =
      ParamChangedResult.updated
        { cast0 with
          pwr_format := some pf0
          framerate := pf0.max_framerate_num / pf0.max_framerate_den
          buffer_type := BufferType.DMABUF }
        1 (1 <<< SPA_DATA_DmaBuf) :=
  ⟨rfl, rfl, ((c3_param_changed cast0 pf0).2.1 rfl rfl).1⟩

/-- The duplication counter only fires on the first iteration. -/
theorem emit_modifiers_of_ne_zero (ms : List Nat) (c : Nat) (hc : c ≠ 0) :
    emit_modifiers ms c = ms := by
  induction ms generalizing c with
  | nil => rfl
  | cons m rest ih => simp [emit_modifiers, hc, ih (c + 1) (Nat.succ_ne_zero c)]

/-- Claim C7: with more than one candidate modifier, `build_format` encodes a
mandatory, non-auto-fixating enumeration whose emitted values start with the
first candidate twice, followed by the remaining candidates in order. -/
theorem c7_modifier_enumeration (m : Nat) (ms : List Nat)
    (hlen : (m :: ms).length > 1) :
    build_format_modifier (m :: ms) =
      ModifierEncoding.enumeration true true (m :: m :: ms) := by
  have hne : (m :: ms).length ≠ 1 := by omega
  simp only [build_format_modifier]
  rw [if_neg (fun hcon => hne hcon.1), if_pos (by simp)]
  simp [emit_modifiers, emit_modifiers_of_ne_zero ms 1 one_ne_zero]

/-- Witness for C7 at candidates [5, 7]: emitted values are 5, 5, 7. -/
theorem c7_modifier_enumeration_witness :
    (5 :: [7]).length > 1 ∧
    build_format_modifier (5 :: [7]) =
      ModifierEncoding.enumeration true true (5 :: 5 :: [7]) :=
  ⟨by decide, c7_modifier_enumeration 5 [7] (by decide)⟩

/-- Claim C9: `xdpw_pwr_context_create` and `xdpw_pwr_context_destroy` are
idempotent; create touches neither handle that is already present, destroy
clears both references. -/
theorem c9_context_idempotent (s : CtxState) (e : CtxEnv) :
    xdpw_pwr_context_create (xdpw_pwr_context_create s e).1 e =
      xdpw_pwr_context_create s e ∧
    xdpw_pwr_context_destroy (xdpw_pwr_context_destroy s) =
      xdpw_pwr_context_destroy s ∧
    (∀ c, s.pwr_context = some c →
      ((xdpw_pwr_context_create s e).1).pwr_context = some c) ∧
    (∀ c, s.core = some c → ((xdpw_pwr_context_create s e).1).core = some c) ∧
    (xdpw_pwr_context_destroy s).core = none ∧
    (xdpw_pwr_context_destroy s).pwr_context = none := by
  obtain ⟨pc, co⟩ := s
  obtain ⟨nc, ncore⟩ := e
  cases pc <;> cases co <;> cases nc <;> cases ncore <;>
    simp [xdpw_pwr_context_create, xdpw_pwr_context_destroy]

/-- Witness for C9 from the empty context state with both creations
succeeding: both calls land in, and stay in, the fully-created state. -/
theorem c9_context_idempotent_witness :
    CtxState.pwr_context ⟨some 1, some 2⟩ = some 1 ∧
    xdpw_pwr_context_create (xdpw_pwr_context_create ⟨none, none⟩ ⟨some 1, some 2⟩).1
        ⟨some 1, some 2⟩ =
      xdpw_pwr_context_create ⟨none, none⟩ ⟨some 1, some 2⟩ ∧
    ((xdpw_pwr_context_create ⟨some 1, some 2⟩ ⟨some 3, some 4⟩).1).pwr_context = some 1 ∧
    xdpw_pwr_context_destroy (xdpw_pwr_context_destroy ⟨some 1, some 2⟩) =
      xdpw_pwr_context_destroy ⟨some 1, some 2⟩ :=
  ⟨rfl,
   (c9_context_idempotent ⟨none, none⟩ ⟨some 1, some 2⟩).1,
   (c9_context_idempotent ⟨some 1, some 2⟩ ⟨some 3, some 4⟩).2.2.1 1 rfl,
   (c9_context_idempotent ⟨some 1, some 2⟩ ⟨some 3, some 4⟩).2.1⟩

/-- Claim C10: evicting the buffer currently referenced by `current_frame`
clears only the `pw_buffer` field of the current frame; `xdpw_buffer` keeps
its previous value, while the evicted slot's descriptor fd becomes -1 and its
`user_data` binding is cleared. -/
theorem c10_remove_buffer_current (c : Cast) (h : Heap) (i : Nat)
    (hpb : c.current_frame.pw_buffer = some i) :
    (pwr_handle_stream_remove_buffer c h i).1.current_frame.pw_buffer = none ∧
    (pwr_handle_stream_remove_buffer c h i).1.current_frame.xdpw_buffer =
      c.current_frame.xdpw_buffer ∧
    ((pwr_handle_stream_remove_buffer c h i).2 i).datas.fd = -1 ∧
    ((pwr_handle_stream_remove_buffer c h i).2 i).user_data = none := by
  simp [pwr_handle_stream_remove_buffer, hpb, updateHeap]

/-- Witness for C10: evicting Held slot 0. -/
theorem c10_remove_buffer_current_witness :
    castHeld.current_frame.pw_buffer = some 0 ∧
    (pwr_handle_stream_remove_buffer castHeld heap0 0).1.current_frame.pw_buffer = none ∧
    (pwr_handle_stream_remove_buffer castHeld heap0 0).1.current_frame.xdpw_buffer =
      castHeld.current_frame.xdpw_buffer ∧
    ((pwr_handle_stream_remove_buffer castHeld heap0 0).2 0).datas.fd = -1 ∧
    ((pwr_handle_stream_remove_buffer castHeld heap0 0).2 0).user_data = none :=
  ⟨rfl, c10_remove_buffer_current castHeld heap0 0 rfl⟩

/-! Helper lemmas about the individual operations. -/

/-- `enqueue` clears both current-frame pointers on every exit path. -/
theorem enqueue_clears (c : Cast) (h : Heap) :
    (xdpw_pwr_enqueue_buffer c h).1.current_frame.pw_buffer = none ∧
    (xdpw_pwr_enqueue_buffer c h).1.current_frame.xdpw_buffer = none := by
  cases hpb : c.current_frame.pw_buffer with
  | none => simp [xdpw_pwr_enqueue_buffer, hpb]
  | some i => cases hm : (h i).meta_header <;> simp [xdpw_pwr_enqueue_buffer, hpb, hm]

/-- `enqueue` does not touch `need_buffer`. -/
theorem enqueue_need (c : Cast) (h : Heap) :
    (xdpw_pwr_enqueue_buffer c h).1.need_buffer = c.need_buffer := by
  cases hpb : c.current_frame.pw_buffer with
  | none => simp [xdpw_pwr_enqueue_buffer, hpb]
  | some i =>
    cases hm : (h i).meta_header <;> cases hy : c.current_frame.y_invert <;>
      simp [xdpw_pwr_enqueue_buffer, hpb, hm, hy]

/-- `dequeue` from an Empty slot never hits its assertion; it installs
exactly the slot the bus returned, binds the recorded backing buffer from the
pool, and changes nothing else. -/
theorem dequeue_spec (c : Cast) (h : Heap) (bus : Option Nat)
    (hpb : c.current_frame.pw_buffer = none) :
    ∃ c1, xdpw_pwr_dequeue_buffer c h bus = some c1 ∧
      c1.current_frame.pw_buffer = bus ∧
      c1.need_buffer = c.need_buffer ∧ c1.seq = c.seq ∧
      c1.written = c.written ∧ c1.queued = c.queued ∧
      (∀ i, bus = some i → c1.current_frame.xdpw_buffer = (h i).user_data) := by
  cases bus with
  | none => exact ⟨c, by simp [xdpw_pwr_dequeue_buffer, hpb], hpb, rfl, rfl, rfl, rfl, by simp⟩
  | some i =>
    refine ⟨{ c with current_frame := { c.current_frame with
        pw_buffer := some i, xdpw_buffer := (h i).user_data } },
      by simp [xdpw_pwr_dequeue_buffer, hpb], rfl, rfl, rfl, rfl, rfl, ?_⟩
    intro j hj
    cases hj
    rfl

/-- `swap` never hits an assertion; afterwards the slot is exactly the bus's
answer and `need_buffer` signals the failed dequeue; a previously Held slot
was enqueued first (heap effect of `enqueue`, slot appended to the queue). -/
theorem swap_spec (c : Cast) (h : Heap) (bus : Option Nat) :
    ∃ s1, xdpw_pwr_swap_buffer c h bus = some s1 ∧
      s1.1.current_frame.pw_buffer = bus ∧
      s1.1.need_buffer = bus.isNone ∧
      (c.current_frame.pw_buffer = none → s1.2 = h ∧ s1.1.queued = c.queued ∧
        s1.1.written = c.written ∧ s1.1.seq = c.seq) ∧
      (∀ i, c.current_frame.pw_buffer = some i →
        s1.2 = (xdpw_pwr_enqueue_buffer c h).2 ∧
        s1.1.queued = c.queued ++ [i] ∧
        s1.1.queued = (xdpw_pwr_enqueue_buffer c h).1.queued ∧
        s1.1.written = (xdpw_pwr_enqueue_buffer c h).1.written ∧
        s1.1.seq = (xdpw_pwr_enqueue_buffer c h).1.seq) := by
  cases hpb : c.current_frame.pw_buffer with
  | none =>
    cases bus with
    | none => simp [xdpw_pwr_swap_buffer, xdpw_pwr_dequeue_buffer, hpb]
    | some j => simp [xdpw_pwr_swap_buffer, xdpw_pwr_dequeue_buffer, hpb]
  | some i =>
    cases hm : (h i).meta_header <;> cases hy : c.current_frame.y_invert <;>
      cases bus <;>
      simp [xdpw_pwr_swap_buffer, xdpw_pwr_dequeue_buffer,
        xdpw_pwr_enqueue_buffer, hpb, hm, hy]

/-- `state_changed` never touches `need_buffer`, and either leaves the
current slot alone or empties it (via `enqueue`). -/
theorem state_changed_fields (c : Cast) (h : Heap) (old st : PwStreamState) :
    (pwr_handle_stream_state_changed c h old st).1.need_buffer = c.need_buffer ∧
    ((pwr_handle_stream_state_changed c h old st).1.current_frame.pw_buffer = none ∨
     (pwr_handle_stream_state_changed c h old st).1.current_frame.pw_buffer =
       c.current_frame.pw_buffer) := by
  cases st with
  | STREAMING =>
    by_cases hfs : c.frame_state = FrameState.NONE <;>
      simp [pwr_handle_stream_state_changed, hfs]
  | PAUSED =>
    by_cases hold : old = PwStreamState.STREAMING
    · refine ⟨?_, Or.inl ?_⟩
      · simp only [pwr_handle_stream_state_changed, hold, if_pos]
        exact enqueue_need c h
      · simp only [pwr_handle_stream_state_changed, hold, if_pos]
        exact (enqueue_clears c h).1
    · simp [pwr_handle_stream_state_changed, hold]
  | ERROR => exact ⟨rfl, Or.inr rfl⟩
  | UNCONNECTED => exact ⟨rfl, Or.inr rfl⟩
  | CONNECTING => exact ⟨rfl, Or.inr rfl⟩

/-- Every entry point preserves the backpressure invariant and never hits a
current-frame assertion. -/
theorem stepInv (c : Cast) (h : Heap) (op : Op) (hInv : needInv c) :
    ∃ s1, step (c, h) op = some s1 ∧ needInv s1.1 := by
  cases op with
  | swapB bus =>
    obtain ⟨s1, heq, hpw, hneed, -, -⟩ := swap_spec c h bus
    refine ⟨s1, heq, fun hn => ?_⟩
    cases bus with
    | none => simpa using hpw
    | some j => rw [hneed] at hn; simp at hn
  | processB bus =>
    cases hnb : c.need_buffer with
    | false =>
      refine ⟨(c, h), ?_, ?_⟩
      · simp [step, pwr_handle_stream_on_process, hnb]
      · intro hx; exact hInv hx
    | true =>
      have hpbn := hInv hnb
      obtain ⟨c1, heq, hpw, hneed1, -, -, -, -⟩ := dequeue_spec c h bus hpbn
      cases bus with
      | none =>
        refine ⟨(c1, h), ?_, fun _ => hpw⟩
        simp [step, pwr_handle_stream_on_process, hnb, heq, hpw]
      | some j =>
        refine ⟨({ c1 with need_buffer := false }, h), ?_, ?_⟩
        · simp [step, pwr_handle_stream_on_process, hnb, heq, hpw]
        · intro hx; simp at hx
  | stateChangedB old st =>
    obtain ⟨hn, hpw⟩ := state_changed_fields c h old st
    refine ⟨pwr_handle_stream_state_changed c h old st, rfl, fun hx => ?_⟩
    cases hpw with
    | inl hnone => exact hnone
    | inr heq2 => rw [heq2]; exact hInv (by rw [← hn]; exact hx)
  | enqueueB =>
    exact ⟨xdpw_pwr_enqueue_buffer c h, rfl, fun _ => (enqueue_clears c h).1⟩
  | removeB i =>
    refine ⟨pwr_handle_stream_remove_buffer c h i, rfl, fun hx => ?_⟩
    have hneed : (pwr_handle_stream_remove_buffer c h i).1.need_buffer = c.need_buffer := by
      by_cases hc : c.current_frame.pw_buffer = some i <;>
        simp [pwr_handle_stream_remove_buffer, hc]
    have hcn := hInv (by rw [← hneed]; exact hx)
    simp [pwr_handle_stream_remove_buffer, hcn]

/-- Any sequence of entry-point invocations runs to completion from an
invariant state and preserves the invariant. -/
theorem runInv (ops : List Op) (c : Cast) (h : Heap) (hInv : needInv c) :
    ∃ s1, run (c, h) ops = some s1 ∧ needInv s1.1 := by
  induction ops generalizing c h with
  | nil => exact ⟨(c, h), rfl, hInv⟩
  | cons op rest ih =>
    obtain ⟨s1, heq, hInv1⟩ := stepInv c h op hInv
    obtain ⟨c1, h1⟩ := s1
    obtain ⟨s2, heq2, hInv2⟩ := ih c1 h1 hInv1
    exact ⟨s2, by simp [run, heq, heq2], hInv2⟩

/-- Claim C1: the current-frame slot is Empty or Held with at most one
outstanding dequeued slot (it is a single `Option`-valued cell): `dequeue`
entered with an Empty slot never hits its assertion and installs exactly the
slot the bus returned; `enqueue` leaves the slot Empty on every exit path;
and along every sequence of entry-point operations from a state satisfying
the backpressure invariant, every internal `dequeue` is entered with the slot
Empty (no assertion fires) and the invariant is maintained. -/
theorem c1_slot_invariant :
    (∀ (c : Cast) (h : Heap) (bus : Option Nat), c.current_frame.pw_buffer = none →
      ∃ c1, xdpw_pwr_dequeue_buffer c h bus = some c1 ∧
        c1.current_frame.pw_buffer = bus) ∧
    (∀ (c : Cast) (h : Heap),
      (xdpw_pwr_enqueue_buffer c h).1.current_frame.pw_buffer = none ∧
      (xdpw_pwr_enqueue_buffer c h).1.current_frame.xdpw_buffer = none) ∧
    (∀ (ops : List Op) (c : Cast) (h : Heap), needInv c →
      ∃ s1, run (c, h) ops = some s1 ∧ needInv s1.1) := by
  refine ⟨fun c h bus hpb => ?_, enqueue_clears, fun ops c h hi => runInv ops c h hi⟩
  obtain ⟨c1, heq, hpw, -, -, -, -, -⟩ := dequeue_spec c h bus hpb
  exact ⟨c1, heq, hpw⟩

/-- Witness for C1: a concrete dequeue from Empty, and a concrete three-step
trace (swap, process, state change) from the fresh instance. -/
theorem c1_slot_invariant_witness :
    cast0.current_frame.pw_buffer = none ∧
    needInv cast0 ∧
    (∃ c1, xdpw_pwr_dequeue_buffer cast0 heap0 (some 0) = some c1 ∧
      c1.current_frame.pw_buffer = some 0) ∧
    (∃ s1, run (cast0, heap0) [Op.swapB (some 0), Op.processB none,
        Op.stateChangedB PwStreamState.STREAMING PwStreamState.PAUSED] = some s1 ∧
      needInv s1.1) := by
  have hinv : needInv cast0 := by simp [needInv, cast0]
  exact ⟨rfl, hinv, c1_slot_invariant.1 cast0 heap0 (some 0) rfl,
    c1_slot_invariant.2.2 _ cast0 heap0 hinv⟩

/-- Claim C5: `swap` enqueues first when Held (heap effect of `enqueue`, the
held slot queued), then clears `need_buffer` and dequeues; afterwards
`need_buffer` is set exactly when the dequeue failed; the bus `process`
event, when `need_buffer` is set, dequeues and clears `need_buffer` exactly
when that dequeue obtained a slot. -/
theorem c5_swap_backpressure :
    (∀ (c : Cast) (h : Heap) (bus : Option Nat),
      ∃ s1, xdpw_pwr_swap_buffer c h bus = some s1 ∧
        s1.1.need_buffer = bus.isNone ∧
        s1.1.current_frame.pw_buffer = bus ∧
        (∀ i, c.current_frame.pw_buffer = some i →
          s1.2 = (xdpw_pwr_enqueue_buffer c h).2 ∧ i ∈ s1.1.queued)) ∧
    (∀ (c : Cast) (h : Heap) (bus : Option Nat),
      c.need_buffer = true → c.current_frame.pw_buffer = none →
      ∃ c1, pwr_handle_stream_on_process c h bus = some c1 ∧
        c1.need_buffer = bus.isNone ∧
        c1.current_frame.pw_buffer = bus) := by
  constructor
  · intro c h bus
    obtain ⟨s1, heq, hpw, hneed, hempty, hheld⟩ := swap_spec c h bus
    refine ⟨s1, heq, hneed, hpw, fun i hi => ⟨(hheld i hi).1, ?_⟩⟩
    rw [(hheld i hi).2.1]
    simp
  · intro c h bus hn hpb
    obtain ⟨c1, heq, hpw, hneedeq, -, -, -⟩ := dequeue_spec c h bus hpb
    cases bus with
    | none =>
      refine ⟨c1, ?_, ?_, hpw⟩
      · simp [pwr_handle_stream_on_process, hn, heq, hpw]
      · rw [hneedeq, hn]; rfl
    | some j =>
      refine ⟨{ c1 with need_buffer := false }, ?_, rfl, hpw⟩
      simp [pwr_handle_stream_on_process, hn, heq, hpw]

/-- Witness for C5: a swap of Held slot 0 obtaining slot 1, and a process
event recovering from backpressure. -/
theorem c5_swap_backpressure_witness :
    castHeld.current_frame.pw_buffer = some 0 ∧
    (∃ s1, xdpw_pwr_swap_buffer castHeld heap0 (some 1) = some s1 ∧
      s1.1.need_buffer = (some 1 : Option Nat).isNone ∧
      s1.1.current_frame.pw_buffer = some 1 ∧
      (∀ i, castHeld.current_frame.pw_buffer = some i →
        s1.2 = (xdpw_pwr_enqueue_buffer castHeld heap0).2 ∧ i ∈ s1.1.queued)) ∧
    (∃ c1, pwr_handle_stream_on_process { cast0 with need_buffer := true } heap0 (some 2) =
        some c1 ∧
      c1.need_buffer = (some 2 : Option Nat).isNone ∧
      c1.current_frame.pw_buffer = some 2) :=
  ⟨rfl, c5_swap_backpressure.1 castHeld heap0 (some 1),
   c5_swap_backpressure.2 { cast0 with need_buffer := true } heap0 (some 2) rfl rfl⟩

/-- Gluing adjacent `range'` blocks. -/
theorem range'_glue (s m n : Nat) :
    List.range' s m ++ List.range' (s + m) n = List.range' s (m + n) := by
  have hglue := List.range'_append s m n 1
  rw [Nat.one_mul] at hglue
  rw [Nat.add_comm m n]
  exact hglue

/-- The sequence/ghost effect of one `enqueue`: the written list grows by the
contiguous block starting at the old counter, the counter advances by its
length, one buffer is queued per write, and header metadata stays present. -/
theorem enqueue_seq_spec (c : Cast) (h : Heap) (hh : headersPresent h) :
    ∃ k, (xdpw_pwr_enqueue_buffer c h).1.written = c.written ++ List.range' c.seq k ∧
      (xdpw_pwr_enqueue_buffer c h).1.seq = c.seq + k ∧
      (xdpw_pwr_enqueue_buffer c h).1.queued.length = c.queued.length + k ∧
      headersPresent (xdpw_pwr_enqueue_buffer c h).2 := by
  cases hpb : c.current_frame.pw_buffer with
  | none =>
    refine ⟨0, ?_, ?_, ?_, ?_⟩
    · simp [xdpw_pwr_enqueue_buffer, hpb]
    · simp [xdpw_pwr_enqueue_buffer, hpb]
    · simp [xdpw_pwr_enqueue_buffer, hpb]
    · simp only [xdpw_pwr_enqueue_buffer, hpb]
      exact hh
  | some i =>
    cases hm : (h i).meta_header with
    | none => exact absurd hm (hh i)
    | some mh =>
      refine ⟨1, ?_, ?_, ?_, ?_⟩
      · cases hy : c.current_frame.y_invert <;>
          simp [xdpw_pwr_enqueue_buffer, hpb, hm, hy,
            show List.range' c.seq 1 = [c.seq] from rfl]
      · cases hy : c.current_frame.y_invert <;>
          simp [xdpw_pwr_enqueue_buffer, hpb, hm, hy]
      · cases hy : c.current_frame.y_invert <;>
          simp [xdpw_pwr_enqueue_buffer, hpb, hm, hy]
      · intro j
        cases hy : c.current_frame.y_invert <;> by_cases hj : j = i <;>
          simp [xdpw_pwr_enqueue_buffer, hpb, hm, hy, updateHeap, hj] <;>
          exact hh j

/-- `process` leaves the sequence counter and both ghost lists untouched. -/
theorem process_fields (c : Cast) (h : Heap) (bus : Option Nat) (c1 : Cast)
    (heq : pwr_handle_stream_on_process c h bus = some c1) :
    c1.written = c.written ∧ c1.seq = c.seq ∧ c1.queued = c.queued := by
  by_cases hnb : c.need_buffer = true
  · cases hpb : c.current_frame.pw_buffer with
    | some i =>
      simp [pwr_handle_stream_on_process, hnb, xdpw_pwr_dequeue_buffer, hpb] at heq
    | none =>
      cases bus with
      | none =>
        simp [pwr_handle_stream_on_process, hnb, xdpw_pwr_dequeue_buffer, hpb] at heq
        subst heq
        exact ⟨rfl, rfl, rfl⟩
      | some j =>
        simp [pwr_handle_stream_on_process, hnb, xdpw_pwr_dequeue_buffer, hpb] at heq
        subst heq
        exact ⟨rfl, rfl, rfl⟩
  · simp [pwr_handle_stream_on_process, hnb] at heq
    subst heq
    exact ⟨rfl, rfl, rfl⟩

/-- The sequence/ghost effect of one entry-point invocation. -/
theorem step_seq (c : Cast) (h : Heap) (op : Op) (s1 : Cast × Heap)
    (hstep : step (c, h) op = some s1) (hh : headersPresent h) :
    headersPresent s1.2 ∧ ∃ k,
      s1.1.written = c.written ++ List.range' c.seq k ∧
      s1.1.seq = c.seq + k ∧
      s1.1.queued.length = c.queued.length + k := by
  cases op with
  | swapB bus =>
    obtain ⟨s2, heq, hpw, hneed, hempty, hheld⟩ := swap_spec c h bus
    rw [show step (c, h) (Op.swapB bus) = xdpw_pwr_swap_buffer c h bus from rfl, heq] at hstep
    obtain rfl : s2 = s1 := Option.some.inj hstep
    cases hpb : c.current_frame.pw_buffer with
    | none =>
      obtain ⟨hheap, hq, hw, hs⟩ := hempty hpb
      exact ⟨hheap ▸ hh, 0, by simp [hw], by simp [hs], by simp [hq]⟩
    | some i =>
      obtain ⟨hheap, -, hqE, hw, hs⟩ := hheld i hpb
      obtain ⟨k, hw2, hs2, hq2, hh2⟩ := enqueue_seq_spec c h hh
      refine ⟨hheap ▸ hh2, k, ?_, ?_, ?_⟩
      · rw [hw, hw2]
      · rw [hs, hs2]
      · rw [hqE, hq2]
  | processB bus =>
    cases hproc : pwr_handle_stream_on_process c h bus with
    | none => simp [step, hproc] at hstep
    | some c1 =>
      simp [step, hproc] at hstep
      subst hstep
      obtain ⟨hw, hs, hq⟩ := process_fields c h bus c1 hproc
      exact ⟨hh, 0, by simp [hw], by simp [hs], by simp [hq]⟩
  | stateChangedB old st =>
    cases st with
    | STREAMING =>
      by_cases hfs : c.frame_state = FrameState.NONE <;>
        simp [step, pwr_handle_stream_state_changed, hfs] at hstep <;>
        subst hstep <;>
        exact ⟨hh, 0, by simp, by simp, by simp⟩
    | PAUSED =>
      by_cases hold : old = PwStreamState.STREAMING
      · obtain ⟨k, hw2, hs2, hq2, hh2⟩ := enqueue_seq_spec c h hh
        simp [step, pwr_handle_stream_state_changed, hold] at hstep
        subst hstep
        exact ⟨hh2, k, by simpa using hw2, by simpa using hs2, by simpa using hq2⟩
      · simp [step, pwr_handle_stream_state_changed, hold] at hstep
        subst hstep
        exact ⟨hh, 0, by simp, by simp, by simp⟩
    | ERROR =>
      simp [step, pwr_handle_stream_state_changed] at hstep
      subst hstep
      exact ⟨hh, 0, by simp, by simp, by simp⟩
    | UNCONNECTED =>
      simp [step, pwr_handle_stream_state_changed] at hstep
      subst hstep
      exact ⟨hh, 0, by simp, by simp, by simp⟩
    | CONNECTING =>
      simp [step, pwr_handle_stream_state_changed] at hstep
      subst hstep
      exact ⟨hh, 0, by simp, by simp, by simp⟩
  | enqueueB =>
    simp only [step] at hstep
    obtain rfl : xdpw_pwr_enqueue_buffer c h = s1 := Option.some.inj hstep
    obtain ⟨k, hw2, hs2, hq2, hh2⟩ := enqueue_seq_spec c h hh
    exact ⟨hh2, k, hw2, hs2, hq2⟩
  | removeB i =>
    simp only [step] at hstep
    obtain rfl : pwr_handle_stream_remove_buffer c h i = s1 := Option.some.inj hstep
    refine ⟨?_, 0, ?_, ?_, ?_⟩
    · intro j
      by_cases hj : j = i
      · subst hj
        simp only [pwr_handle_stream_remove_buffer, updateHeap, if_pos rfl]
        exact hh j
      · simp only [pwr_handle_stream_remove_buffer, updateHeap, if_neg hj]
        exact hh j
    · by_cases hc : c.current_frame.pw_buffer = some i <;>
        simp [pwr_handle_stream_remove_buffer, hc]
    · by_cases hc : c.current_frame.pw_buffer = some i <;>
        simp [pwr_handle_stream_remove_buffer, hc]
    · by_cases hc : c.current_frame.pw_buffer = some i <;>
        simp [pwr_handle_stream_remove_buffer, hc]

/-- The sequence/ghost effect of a whole trace. -/
theorem run_seq (ops : List Op) (c : Cast) (h : Heap) (s1 : Cast × Heap)
    (hrun : run (c, h) ops = some s1) (hh : headersPresent h) :
    headersPresent s1.2 ∧ ∃ k,
      s1.1.written = c.written ++ List.range' c.seq k ∧
      s1.1.seq = c.seq + k ∧
      s1.1.queued.length = c.queued.length + k := by
  induction ops generalizing c h with
  | nil =>
    simp [run] at hrun
    subst hrun
    exact ⟨hh, 0, by simp, by simp, by simp⟩
  | cons op rest ih =>
    simp only [run] at hrun
    cases hstep : step (c, h) op with
    | none => rw [hstep] at hrun; cases hrun
    | some s2 =>
      rw [hstep] at hrun
      obtain ⟨hh2, k1, hw1, hs1, hq1⟩ := step_seq c h op s2 hstep hh
      obtain ⟨hh3, k2, hw2, hs2, hq2⟩ := ih s2.1 s2.2 hrun hh2
      refine ⟨hh3, k1 + k2, ?_, by omega, by omega⟩
      rw [hw2, hw1, hs1, List.append_assoc, range'_glue]

/-- Claim C6: along any trace, the sequence numbers written into header
records form the contiguous strictly-increasing block starting at the
instance's current counter, one write (and one queued buffer) per successful
enqueue, and the counter is never reset. -/
theorem c6_sequence_strictly_increasing (ops : List Op) (c : Cast) (h : Heap)
    (s1 : Cast × Heap) (hh : headersPresent h) (hrun : run (c, h) ops = some s1) :
    ∃ k, s1.1.written = c.written ++ List.range' c.seq k ∧
      s1.1.seq = c.seq + k ∧
      s1.1.queued.length = c.queued.length + k ∧
      List.Pairwise (fun a b => a < b) (List.range' c.seq k) := by
  obtain ⟨-, k, hw, hs, hq⟩ := run_seq ops c h s1 hrun hh
  refine ⟨k, hw, hs, hq, ?_⟩
  have := List.pairwise_lt_range' c.seq k 1
  simpa using this

/-- The trace used by the C6 witness: swap the Held slot away, then enqueue
the newly obtained one. -/
def ops6 : List Op := [Op.swapB (some 1), Op.enqueueB]

/-- The state reached by `ops6` from `castHeld`. -/
def res6 : Cast × Heap := (run (castHeld, heap0) ops6).getD (castHeld, heap0)

/-- Witness for C6 along the concrete two-enqueue trace `ops6`. -/
theorem c6_sequence_strictly_increasing_witness :
    headersPresent heap0 ∧
    ∃ k, res6.1.written = castHeld.written ++ List.range' castHeld.seq k ∧
      res6.1.seq = castHeld.seq + k ∧
      res6.1.queued.length = castHeld.queued.length + k ∧
      List.Pairwise (fun a b => a < b) (List.range' castHeld.seq k) := by
  have hh : headersPresent heap0 := fun i => by simp [heap0, buf0]
  exact ⟨hh, c6_sequence_strictly_increasing ops6 castHeld heap0 res6 hh (by rfl)⟩

/-- A pool whose slot bitmasks carry both the MemFd and the DmaBuf bits. -/
def heapBoth : Heap := fun _ => buf0 ((1 <<< SPA_DATA_MemFd) ||| (1 <<< SPA_DATA_DmaBuf))

/-- Counterexample to C4 as stated: (a) with the negotiated representation
`WL_SHM`, a slot whose storage-type bitmask is MemFd|DmaBuf (so not exactly
the single matching bit) is nevertheless admitted — no `err`, and a backing
buffer is created and bound; (b) with `DMABUF` negotiated, a MemFd-only
bitmask (matching bit absent) makes the handler fail its assertion (modelled
as `none`) instead of setting `err` and refusing.  The claim demands, for
every bitmask other than exactly the matching bit, a refusal with `err`
set. -/
theorem c4_counterexample :
    cast0.buffer_type = BufferType.WL_SHM ∧
    (heapBoth 0).datas.type ≠ 1 <<< SPA_DATA_MemFd ∧
    cast0.err = 0 ∧
    (pwr_handle_stream_add_buffer cast0 heapBoth 0 (some xb0)).map
      (fun s1 => (s1.1.err, (s1.2 0).user_data)) = some (0, some xb0) ∧
    ({ cast0 with buffer_type := BufferType.DMABUF }).buffer_type = BufferType.DMABUF ∧
    (heap0 0).datas.type = 1 <<< SPA_DATA_MemFd ∧
    pwr_handle_stream_add_buffer { cast0 with buffer_type := BufferType.DMABUF }
      heap0 0 (some xb0) = none := by
  refine ⟨rfl, by decide, rfl, rfl, rfl, rfl, rfl⟩

/-- Claim C4 (amended): when the slot's storage-type bitmask contains
neither the MemFd nor the DmaBuf bit, `err` is set, admission is refused and
nothing is created or bound (state otherwise untouched); when the bitmask
contains the MemFd bit, the negotiated representation must be `WL_SHM` —
otherwise the process asserts — and likewise a DmaBuf-only bitmask requires
`DMABUF`; in the matching cases a created backing buffer is bound to the
slot. -/
theorem c4_storage_type_admission (c : Cast) (h : Heap) (i : Nat)
    (created : Option XdpwBuffer) :
    ((h i).datas.type &&& (1 <<< SPA_DATA_MemFd) = 0 →
     (h i).datas.type &&& (1 <<< SPA_DATA_DmaBuf) = 0 →
      pwr_handle_stream_add_buffer c h i created = some ({ c with err := 1 }, h)) ∧
    ((h i).datas.type &&& (1 <<< SPA_DATA_MemFd) > 0 →
     c.buffer_type = BufferType.WL_SHM →
      ∀ xb, created = some xb →
      (pwr_handle_stream_add_buffer c h i created).map
        (fun s1 => (s1.1, (s1.2 i).user_data)) = some (c, some xb)) ∧
    ((h i).datas.type &&& (1 <<< SPA_DATA_MemFd) = 0 →
     (h i).datas.type &&& (1 <<< SPA_DATA_DmaBuf) > 0 →
     c.buffer_type = BufferType.DMABUF →
      ∀ xb, created = some xb →
      (pwr_handle_stream_add_buffer c h i created).map
        (fun s1 => (s1.1, (s1.2 i).user_data)) = some (c, some xb)) ∧
    ((h i).datas.type &&& (1 <<< SPA_DATA_MemFd) > 0 →
     c.buffer_type = BufferType.DMABUF →
      pwr_handle_stream_add_buffer c h i created = none) ∧
    ((h i).datas.type &&& (1 <<< SPA_DATA_MemFd) = 0 →
     (h i).datas.type &&& (1 <<< SPA_DATA_DmaBuf) > 0 →
     c.buffer_type = BufferType.WL_SHM →
      pwr_handle_stream_add_buffer c h i created = none) := by
  refine ⟨fun h4 h8 => ?_, fun h4 hbt xb hxb => ?_, fun h4 h8 hbt xb hxb => ?_,
    fun h4 hbt => ?_, fun h4 h8 hbt => ?_⟩
  · simp [pwr_handle_stream_add_buffer, h4, h8]
  · subst hxb
    simp [pwr_handle_stream_add_buffer, pwr_add_buffer_tail, h4, hbt, updateHeap]
  · subst hxb
    simp [pwr_handle_stream_add_buffer, pwr_add_buffer_tail, h4, h8, hbt, updateHeap]
  · simp [pwr_handle_stream_add_buffer, h4, hbt]
  · simp [pwr_handle_stream_add_buffer, h4, h8, hbt]

/-- A pool carrying no supported storage-type bit. -/
def heapNoBits : Heap := fun _ => buf0 1

/-- Witness for C4 (amended): a slot with no supported bit is refused with
`err` set; a MemFd slot is admitted and bound. -/
theorem c4_storage_type_admission_witness :
    (heapNoBits 0).datas.type &&& (1 <<< SPA_DATA_MemFd) = 0 ∧
    (heapNoBits 0).datas.type &&& (1 <<< SPA_DATA_DmaBuf) = 0 ∧
    pwr_handle_stream_add_buffer cast0 heapNoBits 0 (some xb0) =
      some ({ cast0 with err := 1 }, heapNoBits) ∧
    (pwr_handle_stream_add_buffer cast0 heap0 0 (some xb0)).map
      (fun s1 => (s1.1, (s1.2 0).user_data)) = some (cast0, some xb0) :=
  ⟨rfl, rfl,
   (c4_storage_type_admission cast0 heapNoBits 0 (some xb0)).1 rfl rfl,
   (c4_storage_type_admission cast0 heap0 0 (some xb0)).2.1 (by decide) rfl xb0 rfl⟩

/-- Counterexample to C8 as stated: a stream-state transition from Streaming
to ERROR (any non-Paused state) while slot 0 is Held performs no enqueue:
the slot stays Held, nothing is queued, yet `pwr_stream_state` is dropped.
The claim demands an enqueue and an Empty slot after every transition away
from Streaming. -/
theorem c8_counterexample :
    castHeld.current_frame.pw_buffer = some 0 ∧
    PwStreamState.ERROR ≠ PwStreamState.STREAMING ∧
    (pwr_handle_stream_state_changed castHeld heap0 PwStreamState.STREAMING
        PwStreamState.ERROR).1.current_frame.pw_buffer = some 0 ∧
    (pwr_handle_stream_state_changed castHeld heap0 PwStreamState.STREAMING
        PwStreamState.ERROR).1.queued = [] ∧
    (pwr_handle_stream_state_changed castHeld heap0 PwStreamState.STREAMING
        PwStreamState.ERROR).1.pwr_stream_state = false := by
  exact ⟨rfl, by decide, rfl, rfl, rfl⟩

/-- Claim C8 (amended): only the Streaming-to-Paused transition forces an
enqueue — a Held slot is emptied and handed back to the bus before
`pwr_stream_state` is cleared; a transition from Streaming to any other
state leaves the whole instance state (current frame included, so a Held
slot stays Held, and nothing is queued) and the pool untouched except for
clearing `pwr_stream_state`. -/
theorem c8_paused_forces_enqueue (c : Cast) (h : Heap) :
    (pwr_handle_stream_state_changed c h PwStreamState.STREAMING
        PwStreamState.PAUSED).1.current_frame.pw_buffer = none ∧
    (pwr_handle_stream_state_changed c h PwStreamState.STREAMING
        PwStreamState.PAUSED).1.pwr_stream_state = false ∧
    (∀ i, c.current_frame.pw_buffer = some i →
      i ∈ (pwr_handle_stream_state_changed c h PwStreamState.STREAMING
        PwStreamState.PAUSED).1.queued) ∧
    (∀ st, st ≠ PwStreamState.STREAMING → st ≠ PwStreamState.PAUSED →
      pwr_handle_stream_state_changed c h PwStreamState.STREAMING st =
        ({ c with pwr_stream_state := false }, h)) := by
  refine ⟨?_, ?_, ?_, ?_⟩
  · simp only [pwr_handle_stream_state_changed, if_pos rfl]
    exact (enqueue_clears c h).1
  · rfl
  · intro i hi
    simp only [pwr_handle_stream_state_changed, if_pos rfl]
    cases hm : (h i).meta_header <;>
      simp [xdpw_pwr_enqueue_buffer, hi, hm]
  · intro st h1 h2
    cases st with
    | STREAMING => exact absurd rfl h1
    | PAUSED => exact absurd rfl h2
    | ERROR => rfl
    | UNCONNECTED => rfl
    | CONNECTING => rfl

/-- Witness for C8 (amended) on the Held instance: the Paused transition
enqueues slot 0, while the ERROR transition leaves everything but
`pwr_stream_state` untouched (the slot stays Held). -/
theorem c8_paused_forces_enqueue_witness :
    castHeld.current_frame.pw_buffer = some 0 ∧
    (pwr_handle_stream_state_changed castHeld heap0 PwStreamState.STREAMING
        PwStreamState.PAUSED).1.current_frame.pw_buffer = none ∧
    0 ∈ (pwr_handle_stream_state_changed castHeld heap0 PwStreamState.STREAMING
        PwStreamState.PAUSED).1.queued ∧
    PwStreamState.ERROR ≠ PwStreamState.STREAMING ∧
    PwStreamState.ERROR ≠ PwStreamState.PAUSED ∧
    pwr_handle_stream_state_changed castHeld heap0 PwStreamState.STREAMING
        PwStreamState.ERROR =
      ({ castHeld with pwr_stream_state := false }, heap0) :=
  ⟨rfl, (c8_paused_forces_enqueue castHeld heap0).1,
   (c8_paused_forces_enqueue castHeld heap0).2.2.1 0 rfl,
   by decide, by decide,
   (c8_paused_forces_enqueue castHeld heap0).2.2.2 PwStreamState.ERROR
     (by decide) (by decide)⟩

end PipewireScreencast
